import Mathlib

/-!
Verification development for the flood-monitor application (src/main.py).

The in-scope core of the program is embedded shallowly:
the USGS payload normalizer (parse_usgs_data), the network fetch boundary
(fetch_streamflow_data / fetch_gage_height_data), the request-parameter
builder, the memoizing wrapper get_flood_data (st.cache_data with a
5-minute TTL, made explicit as cache-state passing with an integer clock),
the per-site risk-classification loop, and the map-marker coloring rule.

Modelling conventions:
  - Floating-point values are modelled as rationals; Python float() applied
    to a raw string is modelled by pyFloat, covering plain decimal literals
    (optional sign, digits, optional fractional part) and returning none for
    a malformed string, which in Python raises ValueError.
  - Timestamps (pandas datetimes and the cache clock) are modelled as
    integers; each raw dateTime field carries the time point it denotes,
    since datetime parsing itself is not at issue in any property.
  - Python exceptions escaping a function are modelled with Except: an
    error value means the exception propagates to the caller uncaught.
-/

namespace FloodMonitor

/-- Numeric value of a list of decimal digit characters, most significant first. -/
def digitsVal (l : List Char) : Nat :=
  l.foldl (fun acc c => 10 * acc + (c.toNat - 48)) 0

/-- Unsigned part of the float-literal model: splits a character list into an
integer part and an optional fractional part and returns numerator and
denominator, or none when the shape is not a decimal literal. -/
def pyFloatCore (cs : List Char) : Option (Int × Nat) :=
  let intPart := cs.takeWhile Char.isDigit
  let rest := cs.dropWhile Char.isDigit
  match rest with
  | [] => if intPart.isEmpty then none else some ((digitsVal intPart : Int), 1)
  | '.' :: frac =>
    if frac.all Char.isDigit && !(intPart.isEmpty && frac.isEmpty) then
      some ((digitsVal intPart * 10 ^ frac.length + digitsVal frac : Int), 10 ^ frac.length)
    else none
  | _ => none

/-- Model of Python float() on a raw string, restricted to plain decimal
literals (an optional sign, then digits with at most one decimal point).
Returns none exactly when Python float() would raise ValueError on such
input; exotic accepted spellings (exponents, inf, nan, underscores) are
outside the model and none of the verified properties depends on them. -/
def pyFloat (s : String) : Option ℚ :=
  match s.data with
  | '-' :: rest => (pyFloatCore rest).map (fun p => mkRat (-p.1) p.2)
  | '+' :: rest => (pyFloatCore rest).map (fun p => mkRat p.1 p.2)
  | cs => (pyFloatCore cs).map (fun p => mkRat p.1 p.2)

/-- geoLocation.geogLocation member of a series: raw latitude/longitude strings. -/
structure GeogLocation where
  latitude : String
  longitude : String
deriving DecidableEq

/-- sourceInfo member of a series: the siteCode list (each entry contributing
its value string), the site name, and the geographic location. -/
structure SourceInfo where
  siteCode : List String
  siteName : String
  geoLocation : GeogLocation
deriving DecidableEq

/-- The variable member of a series (named variableInfo here because
variable is a Lean keyword): variableName plus the optional unit member,
where some u carries unit.unitCode and none models a missing or falsy unit. -/
structure VariableInfo where
  variableName : String
  unit : Option String
deriving DecidableEq

/-- One timestamp/value pair; dateTime is the time point the raw string
denotes, value is the raw value string (numeric conversion happens later). -/
structure RawPoint where
  dateTime : Int
  value : String
deriving DecidableEq

/-- One element of the values list of a series; its value member is the
list of timestamp/value pairs. -/
structure ValuesBlock where
  value : List RawPoint
deriving DecidableEq

/-- One timeSeries entry of the payload. -/
structure RawSeries where
  sourceInfo : SourceInfo
  variableInfo : VariableInfo
  values : List ValuesBlock
deriving DecidableEq

/-- The raw payload as seen by parse_usgs_data. none models a payload where
value or value.timeSeries is missing (dict.get yields a falsy default). -/
structure RawPayload where
  timeSeries : Option (List RawSeries)
deriving DecidableEq

/-- One normalized record of the output DataFrame. -/
structure Observation where
  site_code : String
  site_name : String
  latitude : ℚ
  longitude : ℚ
  parameter : String
  unit : String
  datetime : Int
  value : ℚ
deriving DecidableEq

/-- Python exceptions that can escape parse_usgs_data: ValueError from
float() on a malformed numeric string, IndexError from indexing [0] into an
empty list. -/
inductive PyError where
  | valueError
  | indexError
deriving DecidableEq

/-- Body of the inner loop of parse_usgs_data: builds the record for one
timestamp/value pair from the per-series metadata, converting the raw value
string with float(). -/
def parsePoint (site_code site_name : String) (latitude longitude : ℚ)
    (param_name param_unit : String) (p : RawPoint) : Except PyError Observation :=
  match pyFloat p.value with
  | none => Except.error PyError.valueError
  | some v =>
    Except.ok { site_code := site_code, site_name := site_name,
                latitude := latitude, longitude := longitude,
                parameter := param_name, unit := param_unit,
                datetime := p.dateTime, value := v }

/-- Body of the outer loop of parse_usgs_data for one timeSeries entry:
extract the site metadata (siteCode[0], siteName, float latitude and
longitude), the parameter descriptor (variableName, unitCode or the string
N/A), then walk the first values block, skipping pairs whose raw value
string equals the sentinel and converting the rest. Field extraction
happens in source order, so the first failing step determines the error. -/
def parseSeries (series : RawSeries) : Except PyError (List Observation) := do
  let site_code ← match series.sourceInfo.siteCode with
    | [] => Except.error PyError.indexError
    | c :: _ => Except.ok c
  let site_name := series.sourceInfo.siteName
  let latitude ← match pyFloat series.sourceInfo.geoLocation.latitude with
    | none => Except.error PyError.valueError
    | some q => Except.ok q
  let longitude ← match pyFloat series.sourceInfo.geoLocation.longitude with
    | none => Except.error PyError.valueError
    | some q => Except.ok q
  let param_name := series.variableInfo.variableName
  let param_unit := match series.variableInfo.unit with
    | none => "N/A"
    | some u => u
  let firstBlock ← match series.values with
    | [] => Except.error PyError.indexError
    | b :: _ => Except.ok b
  (firstBlock.value.filter (fun p => p.value ≠ "-999999")).mapM
    (parsePoint site_code site_name latitude longitude param_name param_unit)

/-- FloodDataFetcher.parse_usgs_data: an absent or empty timeSeries list
yields the empty record list; otherwise the per-series records are
concatenated in order, and any exception raised while processing a series
propagates (discarding all records). -/
def parse_usgs_data (data : RawPayload) : Except PyError (List Observation) :=
  match data.timeSeries with
  | none => Except.ok []
  | some ts =>
    if ts.isEmpty then Except.ok []
    else do
      let recs ← ts.mapM parseSeries
      Except.ok recs.flatten

/-- Outcome of the requests.get call inside a fetcher: either a decoded JSON
payload, or a requests.exceptions.RequestException (network error, timeout,
or the non-2xx status raised by raise_for_status). -/
inductive NetResult where
  | ok (payload : RawPayload)
  | requestException (msg : String)

/-- FloodDataFetcher.fetch_streamflow_data, given the network outcome: the
except clause catches only RequestException (reporting st.error and
returning an empty DataFrame); any exception thrown by parse_usgs_data is
not caught there and propagates to the caller. -/
def fetch_streamflow_data (net : NetResult) : Except PyError (List Observation) :=
  match net with
  | NetResult.requestException _ => Except.ok []
  | NetResult.ok payload => parse_usgs_data payload

/-- FloodDataFetcher.fetch_gage_height_data: identical error structure to
the streamflow fetcher. -/
def fetch_gage_height_data (net : NetResult) : Except PyError (List Observation) :=
  match net with
  | NetResult.requestException _ => Except.ok []
  | NetResult.ok payload => parse_usgs_data payload

/-- Query parameters of the outbound USGS request. -/
structure RequestParams where
  format : String
  parameterCd : String
  period : String
  siteStatus : String
  sites : Option String
  stateCd : Option String
deriving DecidableEq

/-- Python truthiness of an optional list argument: None and the empty list
are falsy. -/
def truthyList (o : Option (List String)) : Bool :=
  match o with
  | none => false
  | some l => !l.isEmpty

/-- Parameter dict built by both fetchers (they differ only in parameterCd):
site codes take precedence over state codes, and when neither is truthy the
hardcoded default site list is used. -/
def buildFetchParams (parameterCd : String) (site_codes states : Option (List String))
    (period : String) : RequestParams :=
  let base : RequestParams :=
    { format := "json", parameterCd := parameterCd, period := period,
      siteStatus := "active", sites := none, stateCd := none }
  if truthyList site_codes then
    { base with sites := some (String.intercalate "," (site_codes.getD [])) }
  else if truthyList states then
    { base with stateCd := some (String.intercalate "," (states.getD [])) }
  else
    { base with sites := some "01646500,02231000,07374000,08062500" }

/-- Request parameters of fetch_streamflow_data (parameterCd 00060). -/
def fetch_streamflow_params (site_codes states : Option (List String))
    (period : String) : RequestParams :=
  buildFetchParams "00060" site_codes states period

/-- Request parameters of fetch_gage_height_data (parameterCd 00065). -/
def fetch_gage_height_params (site_codes states : Option (List String))
    (period : String) : RequestParams :=
  buildFetchParams "00065" site_codes states period

/-- One entry of the st.cache_data store: creation time plus cached result. -/
structure CacheEntry where
  storedAt : Int
  value : List Observation
deriving DecidableEq

/-- The st.cache_data store for get_flood_data, keyed by the argument pair
(data_type, period). -/
abbrev CacheState := List ((String × String) × CacheEntry)

/-- Lookup of a key in the cache store. -/
def cacheFind (c : CacheState) (k : String × String) : Option CacheEntry :=
  match c with
  | [] => none
  | (k₀, e) :: rest => if k₀ = k then some e else cacheFind rest k

/-- The ttl=300 argument of st.cache_data (5 minutes, in seconds). -/
def cacheTTL : Int := 300

/-- Cache consultation: a stored entry is served while younger than the TTL. -/
def cachedLookup (c : CacheState) (k : String × String) (now : Int) :
    Option (List Observation) :=
  match cacheFind c k with
  | none => none
  | some e => if now < e.storedAt + cacheTTL then some e.value else none

/-- get_flood_data under st.cache_data(ttl=300), with the cache state and
clock explicit: a live cached entry for (data_type, period) is returned
without consulting the network; otherwise the matching fetcher runs with
only the period argument, a returned value is stored under the key, and an
exception propagates without storing anything (st.cache_data does not cache
exceptions). -/
def get_flood_data (cache : CacheState) (now : Int) (data_type period : String)
    (net : NetResult) : Except PyError (List Observation × CacheState) :=
  match cachedLookup cache (data_type, period) now with
  | some v => Except.ok (v, cache)
  | none =>
    let fetched := if data_type = "Streamflow" then fetch_streamflow_data net
                   else fetch_gage_height_data net
    match fetched with
    | Except.error e => Except.error e
    | Except.ok obs =>
      Except.ok (obs, ((data_type, period), { storedAt := now, value := obs }) :: cache)

/-- Request parameters of the fetch issued by get_flood_data: both branches
call their fetcher with only the period keyword argument (site_codes and
states stay None). -/
def get_flood_data_request (data_type period : String) : RequestParams :=
  if data_type = "Streamflow" then fetch_streamflow_params none none period
  else fetch_gage_height_params none none period

/-- Request parameters of the single data load of the main script: the
custom-sites text input is read from the sidebar but never referenced
again, so the request depends only on data_type and period. -/
def app_data_request (data_type period _custom_sites : String) : RequestParams :=
  get_flood_data_request data_type period

/-- The per-site risk thresholds of the flood-risk loop, as a function of
data_type and the latest value (the loop bodies at both branches). -/
def classify (data_type : String) (latest_value : ℚ) : String :=
  if data_type = "Streamflow" then
    if latest_value > 15000 then "HIGH"
    else if latest_value > 8000 then "MODERATE"
    else "LOW"
  else
    if latest_value > 25 then "HIGH"
    else if latest_value > 15 then "MODERATE"
    else "LOW"

/-- The map-marker color rule applied to the latest value of a site. -/
def marker_color (data_type : String) (value : ℚ) : String :=
  if data_type = "Streamflow" then
    if value > 10000 then "red" else if value > 5000 then "orange" else "green"
  else
    if value > 20 then "red" else if value > 10 then "orange" else "green"

/-- Helper for uniqueFirst, carrying the codes already seen. -/
def uniqueFirstAux (seen : List String) : List String → List String
  | [] => []
  | a :: l => if a ∈ seen then uniqueFirstAux seen l else a :: uniqueFirstAux (a :: seen) l

/-- pandas Series.unique on the site_code column: distinct values in order
of first occurrence. -/
def uniqueFirst (l : List String) : List String := uniqueFirstAux [] l

/-- Comparison used by sort_values on the datetime column. -/
def datetimeLE (a b : Observation) : Bool := a.datetime ≤ b.datetime

/-- The per-site selection of the risk loop: the rows of one site, sorted
ascending by datetime. -/
def site_sorted_data (df : List Observation) (site : String) : List Observation :=
  (df.filter (fun o => o.site_code = site)).mergeSort datetimeLE

/-- Risk level of one site in the risk loop: classify applied to the value
of the last row after sorting by datetime. none models the IndexError that
iloc[-1] raises on an empty selection; the loop never reaches that case
because it only visits site codes present in the data. -/
def site_risk (data_type : String) (df : List Observation) (site : String) : Option String :=
  (site_sorted_data df site).getLast?.map (fun o => classify data_type o.value)

/-- The flood_risks table restricted to the fields the claims concern: one
(site code, risk level) row per distinct site code, in first-occurrence
order as produced by unique(). -/
def flood_risks (data_type : String) (df : List Observation) : List (String × Option String) :=
  (uniqueFirst (df.map Observation.site_code)).map
    (fun site => (site, site_risk data_type df site))

/-- Concrete values block with three timestamp/value pairs, one of which
carries the sentinel value string. -/
def sampleBlock : ValuesBlock :=
  { value := [ { dateTime := 0, value := "9000" },
               { dateTime := 1, value := "-999999" },
               { dateTime := 2, value := "16000" } ] }

/-- Concrete well-formed series for site 01646500 built on sampleBlock. -/
def sampleSeries : RawSeries :=
  { sourceInfo := { siteCode := ["01646500"], siteName := "POTOMAC RIVER",
                    geoLocation := { latitude := "38.9", longitude := "-77.1" } },
    variableInfo := { variableName := "Streamflow", unit := some "ft3/s" },
    values := [sampleBlock] }

/-- Concrete payload holding sampleSeries. -/
def samplePayload : RawPayload := { timeSeries := some [sampleSeries] }

/-- First record that normalization emits for sampleSeries. -/
def sampleObs1 : Observation :=
  { site_code := "01646500", site_name := "POTOMAC RIVER", latitude := mkRat 389 10,
    longitude := mkRat (-771) 10, parameter := "Streamflow", unit := "ft3/s",
    datetime := 0, value := mkRat 9000 1 }

/-- Second record that normalization emits for sampleSeries (the sentinel
pair in between is dropped). -/
def sampleObs2 : Observation :=
  { site_code := "01646500", site_name := "POTOMAC RIVER", latitude := mkRat 389 10,
    longitude := mkRat (-771) 10, parameter := "Streamflow", unit := "ft3/s",
    datetime := 2, value := mkRat 16000 1 }

/-- Concrete series whose latitude string is not numeric, so float() on it
raises ValueError during normalization. -/
def badLatitudeSeries : RawSeries :=
  { sourceInfo := { siteCode := ["01646500"], siteName := "POTOMAC RIVER",
                    geoLocation := { latitude := "not-a-number", longitude := "-77.1" } },
    variableInfo := { variableName := "Streamflow", unit := some "ft3/s" },
    values := [ { value := [ { dateTime := 0, value := "9000" } ] } ] }

/-- Concrete payload holding badLatitudeSeries. -/
def badLatitudePayload : RawPayload := { timeSeries := some [badLatitudeSeries] }

/-- Cache state left behind by a failed fetch at time 0 under the key
(Streamflow, P1D): the empty result is stored like any other. -/
def failedCache : CacheState :=
  [(("Streamflow", "P1D"), { storedAt := 0, value := [] })]

/-- Successful mapM over Except relates input and output lists pointwise. -/
theorem mapM_ok_forall₂ {α β : Type} {f : α → Except PyError β} :
    ∀ {l : List α} {out : List β}, l.mapM f = Except.ok out →
      List.Forall₂ (fun a b => f a = Except.ok b) l out := by
  intro l
  induction l with
  | nil =>
    intro out h
    rw [List.mapM_nil] at h
    simp only [pure, Except.pure, Except.ok.injEq] at h
    subst h
    exact List.Forall₂.nil
  | cons a l ih =>
    intro out h
    rw [List.mapM_cons] at h
    cases hfa : f a with
    | error e =>
      rw [hfa] at h
      simp [Bind.bind, Except.bind] at h
    | ok b =>
      rw [hfa] at h
      cases hml : l.mapM f with
      | error e =>
        rw [hml] at h
        simp [Bind.bind, Except.bind] at h
      | ok bs =>
        rw [hml] at h
        simp only [Bind.bind, Except.bind, pure, Except.pure, Except.ok.injEq] at h
        subst h
        exact List.Forall₂.cons hfa (ih hml)

/-- A pointwise relation can be strengthened by a fact holding of every
element of the left list. -/
theorem forall₂_and_left {α β : Type} {R : α → β → Prop} {Q : α → Prop} :
    ∀ {l : List α} {out : List β}, List.Forall₂ R l out → (∀ a ∈ l, Q a) →
      List.Forall₂ (fun a b => Q a ∧ R a b) l out := by
  intro l out h
  induction h with
  | nil => intro; exact List.Forall₂.nil
  | cons hr _ ih =>
    intro hq
    exact List.Forall₂.cons ⟨hq _ (List.mem_cons_self _ _), hr⟩
      (ih fun a ha => hq a (List.mem_cons_of_mem _ ha))

/-- Every element of the right list of a pointwise relation has a related
element on the left. -/
theorem forall₂_exists_left {α β : Type} {R : α → β → Prop} :
    ∀ {l : List α} {out : List β}, List.Forall₂ R l out → ∀ b ∈ out, ∃ a ∈ l, R a b := by
  intro l out h
  induction h with
  | nil => simp
  | cons hr _ ih =>
    intro b hb
    rcases List.mem_cons.mp hb with rfl | hb
    · exact ⟨_, List.mem_cons_self _ _, hr⟩
    · rcases ih b hb with ⟨a, ha, hr₂⟩
      exact ⟨a, List.mem_cons_of_mem _ ha, hr₂⟩

/-- The last element of a list is a member. -/
theorem mem_of_getLast?_eq_some {α : Type} :
    ∀ {l : List α} {y : α}, l.getLast? = some y → y ∈ l := by
  intro l
  induction l with
  | nil => intro y h; cases h
  | cons a l ih =>
    intro y h
    cases l with
    | nil =>
      simp only [List.getLast?_singleton, Option.some.injEq] at h
      subst h
      exact List.mem_cons_self _ _
    | cons b l₂ =>
      rw [List.getLast?_cons_cons] at h
      exact List.mem_cons_of_mem _ (ih h)

/-- In a pairwise-related list, every member is related to the last
element (for a reflexive relation). -/
theorem rel_getLast?_of_pairwise {α : Type} {R : α → α → Prop} (hrefl : ∀ a, R a a) :
    ∀ {l : List α} {x y : α}, List.Pairwise R l → x ∈ l → l.getLast? = some y → R x y := by
  intro l
  induction l with
  | nil => intro x y _ hx; cases hx
  | cons a l ih =>
    intro x y hp hx hl
    rcases List.pairwise_cons.mp hp with ⟨ha, hp₂⟩
    cases l with
    | nil =>
      simp only [List.getLast?_singleton, Option.some.injEq] at hl
      rcases List.mem_singleton.mp hx with rfl
      subst hl
      exact hrefl _
    | cons b l₂ =>
      rw [List.getLast?_cons_cons] at hl
      rcases List.mem_cons.mp hx with rfl | hx₂
      · exact ha y (mem_of_getLast?_eq_some hl)
      · exact ih hp₂ hx₂ hl

/-- uniqueFirstAux only returns elements of its input list. -/
theorem mem_of_mem_uniqueFirstAux :
    ∀ {l seen : List String} {x : String}, x ∈ uniqueFirstAux seen l → x ∈ l := by
  intro l
  induction l with
  | nil => intro seen x h; simp [uniqueFirstAux] at h
  | cons a l ih =>
    intro seen x h
    rw [uniqueFirstAux] at h
    by_cases hs : a ∈ seen
    · rw [if_pos hs] at h
      exact List.mem_cons_of_mem _ (ih h)
    · rw [if_neg hs] at h
      rcases List.mem_cons.mp h with rfl | h₂
      · exact List.mem_cons_self _ _
      · exact List.mem_cons_of_mem _ (ih h₂)

/-- unique() only returns site codes present in the column. -/
theorem mem_of_mem_uniqueFirst {l : List String} {x : String}
    (h : x ∈ uniqueFirst l) : x ∈ l :=
  mem_of_mem_uniqueFirstAux h

/-- The datetime comparison is transitive. -/
theorem datetimeLE_trans : ∀ a b c : Observation,
    datetimeLE a b = true → datetimeLE b c = true → datetimeLE a c = true := by
  intro a b c
  simp only [datetimeLE, decide_eq_true_eq]
  omega

/-- The datetime comparison is total. -/
theorem datetimeLE_total : ∀ a b : Observation,
    (datetimeLE a b || datetimeLE b a) = true := by
  intro a b
  simp only [datetimeLE, Bool.or_eq_true, decide_eq_true_eq]
  omega

/-- The datetime comparison is reflexive. -/
theorem datetimeLE_refl : ∀ a : Observation, datetimeLE a a = true := by
  intro a
  simp [datetimeLE]

/-- Destructor for a successful parseSeries run: the site metadata parsed,
the first values block was selected, and the records come from mapping the
point parser over its non-sentinel pairs. -/
theorem parseSeries_ok_elim {series : RawSeries} {obs : List Observation}
    (h : parseSeries series = Except.ok obs) :
    ∃ c la lo blk,
      series.sourceInfo.siteCode.head? = some c ∧
      pyFloat series.sourceInfo.geoLocation.latitude = some la ∧
      pyFloat series.sourceInfo.geoLocation.longitude = some lo ∧
      series.values.head? = some blk ∧
      (blk.value.filter (fun p => p.value ≠ "-999999")).mapM
        (parsePoint c series.sourceInfo.siteName la lo series.variableInfo.variableName
          (match series.variableInfo.unit with | none => "N/A" | some u => u)) =
        Except.ok obs := by
  unfold parseSeries at h
  cases hsc : series.sourceInfo.siteCode with
  | nil => rw [hsc] at h; simp [Bind.bind, Except.bind] at h
  | cons c rest =>
    rw [hsc] at h
    cases hla : pyFloat series.sourceInfo.geoLocation.latitude with
    | none => rw [hla] at h; simp [Bind.bind, Except.bind] at h
    | some la =>
      rw [hla] at h
      cases hlo : pyFloat series.sourceInfo.geoLocation.longitude with
      | none => rw [hlo] at h; simp [Bind.bind, Except.bind] at h
      | some lo =>
        rw [hlo] at h
        cases hv : series.values with
        | nil => rw [hv] at h; simp [Bind.bind, Except.bind] at h
        | cons blk blks =>
          rw [hv] at h
          simp only [Bind.bind, Except.bind] at h
          exact ⟨c, la, lo, blk, rfl, rfl, rfl, rfl, h⟩

/-- Claim C1, counterexample: the risk classifier maps the exact boundary
value 8000 for Streamflow to LOW, not to MODERATE as the claim states,
because the comparison against the MODERATE threshold is strict. -/
theorem C1_counterexample :
    classify "Streamflow" 8000 = "LOW" ∧ classify "Streamflow" 8000 ≠ "MODERATE" :=
  ⟨by decide, by decide⟩

/-- Claim C1 as amended: the risk classifier, applied to parameter
Streamflow, maps the exact boundary value 8000.0 to LOW (both thresholds
are strict, so 8000 itself is neither MODERATE nor HIGH), and maps
15000.01 to HIGH. -/
theorem C1_amended_boundary :
    classify "Streamflow" 8000 = "LOW" ∧ classify "Streamflow" 15000.01 = "HIGH" := by
  refine ⟨by decide, ?_⟩
  unfold classify
  rw [if_pos rfl, if_pos (by norm_num)]

/-- Claim C6: the map-marker coloring uses its own two-level threshold set
(Streamflow red above 10000 and orange above 5000, Gage Height red above 20
and orange above 10), and it classifies some values into a different tier
than the risk classifier does: 12000 for Streamflow is a red marker yet
MODERATE risk, and 22 for Gage Height is a red marker yet MODERATE risk. -/
theorem C6_marker_vs_classifier :
    (∀ v : ℚ, marker_color "Streamflow" v =
        if v > 10000 then "red" else if v > 5000 then "orange" else "green") ∧
    (∀ v : ℚ, marker_color "Gage Height" v =
        if v > 20 then "red" else if v > 10 then "orange" else "green") ∧
    marker_color "Streamflow" 12000 = "red" ∧ classify "Streamflow" 12000 = "MODERATE" ∧
    marker_color "Gage Height" 22 = "red" ∧ classify "Gage Height" 22 = "MODERATE" := by
  refine ⟨fun v => ?_, fun v => ?_, by decide, by decide, by decide, by decide⟩
  · unfold marker_color
    rw [if_pos rfl]
  · unfold marker_color
    rw [if_neg (by decide)]

/-- Claim C8: a payload whose top-level time-series list is missing, and a
payload whose time-series list is present but empty, both normalize to the
empty record list without an error. -/
theorem C8_no_data :
    parse_usgs_data { timeSeries := none } = Except.ok [] ∧
    parse_usgs_data { timeSeries := some [] } = Except.ok [] :=
  ⟨rfl, rfl⟩

/-- Claim C9: the request issued by the cached pipeline is independent of
the custom-sites text input; get_flood_data calls the fetcher with only the
period argument, so the sites parameter is always the hardcoded default
list and no state filter is sent. -/
theorem C9_custom_sites_ignored (data_type period custom_sites : String) :
    app_data_request data_type period custom_sites = get_flood_data_request data_type period ∧
    (app_data_request data_type period custom_sites).sites =
      some "01646500,02231000,07374000,08062500" ∧
    (app_data_request data_type period custom_sites).stateCd = none := by
  refine ⟨rfl, ?_, ?_⟩ <;>
  · unfold app_data_request get_flood_data_request fetch_streamflow_params
      fetch_gage_height_params buildFetchParams truthyList
    by_cases hdt : data_type = "Streamflow" <;> simp [hdt]

/-- Claim C10: normalization of a series reads only the first element of
its values list; replacing everything after the first block changes
nothing, so pairs in later blocks are never emitted. -/
theorem C10_first_block_only (s : RawSeries) (b : ValuesBlock) (r : List ValuesBlock) :
    parseSeries { s with values := b :: r } = parseSeries { s with values := [b] } :=
  rfl

/-- Claim C2, counterexample: a failing fetch at time 0 returns the empty
collection but DOES populate the cache under (Streamflow, P1D); a
subsequent call with the same key at time 60, even though the network would
now deliver a payload that normalizes to two records, returns the cached
empty collection without fetching. -/
theorem C2_counterexample :
    get_flood_data [] 0 "Streamflow" "P1D" (NetResult.requestException "timeout") =
      Except.ok ([], failedCache) ∧
    cacheFind failedCache ("Streamflow", "P1D") = some { storedAt := 0, value := [] } ∧
    get_flood_data failedCache 60 "Streamflow" "P1D" (NetResult.ok samplePayload) =
      Except.ok ([], failedCache) ∧
    parse_usgs_data samplePayload = Except.ok [sampleObs1, sampleObs2] ∧
    [sampleObs1, sampleObs2] ≠ ([] : List Observation) :=
  ⟨rfl, rfl, rfl, rfl, by simp⟩

/-- Claim C2 as amended: a fetch cycle in which the Source Client fails
yields an empty Observation collection, but the empty result IS stored in
the cache under the (parameter, period) key like any successful result, so
a subsequent call with the same key within the TTL returns the cached empty
collection without issuing a fresh network fetch. -/
theorem C2_amended_cached_failure (msg data_type period : String) (now later : Int)
    (net : NetResult) (h : later < now + cacheTTL) :
    get_flood_data [] now data_type period (NetResult.requestException msg) =
      Except.ok ([], [((data_type, period), { storedAt := now, value := [] })]) ∧
    get_flood_data [((data_type, period), { storedAt := now, value := [] })] later
        data_type period net =
      Except.ok ([], [((data_type, period), { storedAt := now, value := [] })]) := by
  constructor
  · unfold get_flood_data cachedLookup cacheFind
    by_cases hdt : data_type = "Streamflow" <;>
      simp [hdt, fetch_streamflow_data, fetch_gage_height_data]
  · unfold get_flood_data cachedLookup cacheFind
    simp [h]

/-- Claim C2 witness: the amended behavior at the concrete failing cycle of
the counterexample scenario. -/
theorem C2_amended_cached_failure_witness :
    ((60 : Int) < 0 + cacheTTL) ∧
    (get_flood_data [] 0 "Streamflow" "P1D" (NetResult.requestException "timeout") =
      Except.ok ([], [(("Streamflow", "P1D"), { storedAt := 0, value := [] })]) ∧
    get_flood_data [(("Streamflow", "P1D"), { storedAt := 0, value := [] })] 60
        "Streamflow" "P1D" (NetResult.ok samplePayload) =
      Except.ok ([], [(("Streamflow", "P1D"), { storedAt := 0, value := [] })])) :=
  ⟨by decide, C2_amended_cached_failure "timeout" "Streamflow" "P1D" 0 60
    (NetResult.ok samplePayload) (by decide)⟩

/-- Claim C3, counterexample: a payload whose latitude string fails float
parsing makes fetch_streamflow_data return an uncaught ValueError rather
than the empty collection, and the error propagates through get_flood_data
to the presentation layer. -/
theorem C3_counterexample :
    fetch_streamflow_data (NetResult.ok badLatitudePayload) = Except.error PyError.valueError ∧
    fetch_streamflow_data (NetResult.ok badLatitudePayload) ≠ Except.ok [] ∧
    get_flood_data [] 0 "Streamflow" "P1D" (NetResult.ok badLatitudePayload) =
      Except.error PyError.valueError :=
  ⟨rfl, fun hc => Except.noConfusion
    ((rfl : fetch_streamflow_data (NetResult.ok badLatitudePayload) =
        Except.error PyError.valueError) ▸ hc), rfl⟩

/-- Claim C3 as amended: only network-level fetch failures (the
RequestException family: network error, timeout, non-2xx) are caught at the
pipeline boundary and converted to an empty collection with a visible
warning; a malformed numeric field inside an otherwise-present series
raises an error that the except clause does not catch, so it propagates
through the fetchers and get_flood_data to the presentation layer. -/
theorem C3_amended_boundary (msg : String) (payload : RawPayload) (e : PyError)
    (h : parse_usgs_data payload = Except.error e) :
    fetch_streamflow_data (NetResult.requestException msg) = Except.ok [] ∧
    fetch_gage_height_data (NetResult.requestException msg) = Except.ok [] ∧
    fetch_streamflow_data (NetResult.ok payload) = Except.error e ∧
    fetch_gage_height_data (NetResult.ok payload) = Except.error e ∧
    get_flood_data [] 0 "Streamflow" "P1D" (NetResult.ok payload) = Except.error e := by
  refine ⟨rfl, rfl, h, h, ?_⟩
  unfold get_flood_data cachedLookup cacheFind
  simp [fetch_streamflow_data, h]

/-- Claim C3 witness: the amended behavior at the concrete malformed
payload badLatitudePayload. -/
theorem C3_amended_boundary_witness :
    parse_usgs_data badLatitudePayload = Except.error PyError.valueError ∧
    (fetch_streamflow_data (NetResult.requestException "timeout") = Except.ok [] ∧
    fetch_gage_height_data (NetResult.requestException "timeout") = Except.ok [] ∧
    fetch_streamflow_data (NetResult.ok badLatitudePayload) = Except.error PyError.valueError ∧
    fetch_gage_height_data (NetResult.ok badLatitudePayload) = Except.error PyError.valueError ∧
    get_flood_data [] 0 "Streamflow" "P1D" (NetResult.ok badLatitudePayload) =
      Except.error PyError.valueError) :=
  ⟨rfl, C3_amended_boundary "timeout" badLatitudePayload PyError.valueError rfl⟩

/-- Claim C4: whenever a series normalizes successfully, the emitted
records correspond one-to-one, in order, with the pairs of the first
values block whose raw value string differs from the sentinel; every
sentinel-string pair is dropped and every emitted record carries the value
parsed from a non-sentinel pair. -/
theorem C4_sentinel_filtering (series : RawSeries) (obs : List Observation)
    (h : parseSeries series = Except.ok obs) :
    ∃ blk : ValuesBlock, series.values.head? = some blk ∧
      List.Forall₂ (fun (p : RawPoint) (o : Observation) =>
          p.value ≠ "-999999" ∧ pyFloat p.value = some o.value ∧ o.datetime = p.dateTime)
        (blk.value.filter (fun p => p.value ≠ "-999999")) obs ∧
      ∀ o ∈ obs, ∃ p ∈ blk.value, p.value ≠ "-999999" ∧
        pyFloat p.value = some o.value ∧ o.datetime = p.dateTime := by
  obtain ⟨c, la, lo, blk, hc, hla, hlo, hblk, hmap⟩ := parseSeries_ok_elim h
  have hf := mapM_ok_forall₂ hmap
  have hq : ∀ p ∈ blk.value.filter (fun p => p.value ≠ "-999999"),
      p.value ≠ "-999999" := by
    intro p hp
    simpa using List.of_mem_filter hp
  have hf₂ := forall₂_and_left hf hq
  have hf₃ : List.Forall₂ (fun (p : RawPoint) (o : Observation) =>
      p.value ≠ "-999999" ∧ pyFloat p.value = some o.value ∧ o.datetime = p.dateTime)
      (blk.value.filter (fun p => p.value ≠ "-999999")) obs := by
    refine List.Forall₂.imp ?_ hf₂
    rintro p o ⟨hne, hok⟩
    refine ⟨hne, ?_⟩
    unfold parsePoint at hok
    cases hpv : pyFloat p.value with
    | none => rw [hpv] at hok; cases hok
    | some v =>
      rw [hpv] at hok
      injection hok with h₂
      subst h₂
      exact ⟨rfl, rfl⟩
  refine ⟨blk, hblk, hf₃, ?_⟩
  intro o ho
  obtain ⟨p, hp, hrel⟩ := forall₂_exists_left hf₃ o ho
  exact ⟨p, List.mem_of_mem_filter hp, hrel⟩

/-- Claim C4 witness: normalization of sampleSeries emits exactly the two
non-sentinel pairs of its block, in order. -/
theorem C4_sentinel_filtering_witness :
    parseSeries sampleSeries = Except.ok [sampleObs1, sampleObs2] ∧
    (∃ blk : ValuesBlock, sampleSeries.values.head? = some blk ∧
      List.Forall₂ (fun (p : RawPoint) (o : Observation) =>
          p.value ≠ "-999999" ∧ pyFloat p.value = some o.value ∧ o.datetime = p.dateTime)
        (blk.value.filter (fun p => p.value ≠ "-999999")) [sampleObs1, sampleObs2] ∧
      ∀ o ∈ [sampleObs1, sampleObs2], ∃ p ∈ blk.value, p.value ≠ "-999999" ∧
        pyFloat p.value = some o.value ∧ o.datetime = p.dateTime) :=
  ⟨rfl, C4_sentinel_filtering sampleSeries [sampleObs1, sampleObs2] rfl⟩

/-- Claim C7: for a series with a single values block that normalizes
successfully, the number of emitted records equals the number of pairs in
that block minus the number of sentinel-valued pairs. -/
theorem C7_emitted_count (series : RawSeries) (blk : ValuesBlock) (obs : List Observation)
    (hv : series.values = [blk]) (h : parseSeries series = Except.ok obs) :
    obs.length =
      blk.value.length - (blk.value.filter (fun p => p.value = "-999999")).length := by
  obtain ⟨c, la, lo, blk₂, hc, hla, hlo, hblk, hmap⟩ := parseSeries_ok_elim h
  rw [hv] at hblk
  have hb : blk = blk₂ := by simpa using hblk
  subst hb
  have hlen := (mapM_ok_forall₂ hmap).length_eq
  have hfe : (fun p : RawPoint => decide (p.value ≠ "-999999"))
      = fun p : RawPoint => !decide (p.value = "-999999") := by
    funext p
    simp only [ne_eq, decide_not]
  rw [hfe] at hlen
  have hsum : ∀ l : List RawPoint,
      (List.filter (fun p => decide (p.value = "-999999")) l).length
        + (List.filter (fun p => !decide (p.value = "-999999")) l).length = l.length := by
    intro l
    induction l with
    | nil => rfl
    | cons p l ih =>
      rw [List.filter_cons, List.filter_cons]
      cases hd : decide (p.value = "-999999") <;> simp <;> omega
  have hs := hsum blk.value
  omega

/-- Claim C7 witness: sampleSeries has three pairs of which one is
sentinel-valued, and exactly two records are emitted. -/
theorem C7_emitted_count_witness :
    sampleSeries.values = [sampleBlock] ∧
    parseSeries sampleSeries = Except.ok [sampleObs1, sampleObs2] ∧
    ([sampleObs1, sampleObs2] : List Observation).length =
      sampleBlock.value.length -
        (sampleBlock.value.filter (fun p => p.value = "-999999")).length :=
  ⟨rfl, rfl, C7_emitted_count sampleSeries sampleBlock [sampleObs1, sampleObs2] rfl rfl⟩

/-- Claim C5: the risk classifier is a pure function of the parameter type
and one value, with the thresholds of the source (Streamflow strict above
15000 HIGH and above 8000 MODERATE, Gage Height strict above 25 HIGH and
above 15 MODERATE, else LOW), and the risk row of every site in the data
applies it to the value of a most-recent-by-datetime observation of that
site, obtained by sorting the site rows by datetime and taking the last. -/
theorem C5_risk_classifier (data_type : String) (df : List Observation) (site : String)
    (h : site ∈ uniqueFirst (df.map Observation.site_code)) :
    (∀ v : ℚ, classify "Streamflow" v =
        if v > 15000 then "HIGH" else if v > 8000 then "MODERATE" else "LOW") ∧
    (∀ v : ℚ, classify "Gage Height" v =
        if v > 25 then "HIGH" else if v > 15 then "MODERATE" else "LOW") ∧
    ∃ o : Observation, o ∈ df ∧ o.site_code = site ∧
      (∀ o₂ ∈ df, o₂.site_code = site → o₂.datetime ≤ o.datetime) ∧
      site_risk data_type df site = some (classify data_type o.value) ∧
      (site, some (classify data_type o.value)) ∈ flood_risks data_type df := by
  refine ⟨fun v => by unfold classify; rw [if_pos rfl],
          fun v => by unfold classify; rw [if_neg (by decide)], ?_⟩
  have hsite := mem_of_mem_uniqueFirst h
  obtain ⟨o₀, ho₀, hsc₀⟩ := List.mem_map.mp hsite
  have ho₀l : o₀ ∈ df.filter (fun o => o.site_code = site) :=
    List.mem_filter.mpr ⟨ho₀, by simp [hsc₀]⟩
  have hs_ne : (df.filter (fun o => o.site_code = site)).mergeSort datetimeLE ≠ [] :=
    List.ne_nil_of_mem (List.mem_mergeSort.mpr ho₀l)
  cases hy : ((df.filter (fun o => o.site_code = site)).mergeSort datetimeLE).getLast? with
  | none => exact absurd (List.getLast?_eq_none_iff.mp hy) hs_ne
  | some y =>
    have hy_mem : y ∈ df.filter (fun o => o.site_code = site) :=
      List.mem_mergeSort.mp (mem_of_getLast?_eq_some hy)
    have hy_df : y ∈ df := List.mem_of_mem_filter hy_mem
    have hy_site : y.site_code = site := by simpa using List.of_mem_filter hy_mem
    have hpw := @List.sorted_mergeSort Observation datetimeLE datetimeLE_trans
      datetimeLE_total (df.filter (fun o => o.site_code = site))
    have hrisk : site_risk data_type df site = some (classify data_type y.value) := by
      unfold site_risk site_sorted_data
      rw [hy]
      rfl
    refine ⟨y, hy_df, hy_site, ?_, hrisk, ?_⟩
    · intro o₂ ho₂ hsite₂
      have ho₂s : o₂ ∈ (df.filter (fun o => o.site_code = site)).mergeSort datetimeLE :=
        List.mem_mergeSort.mpr (List.mem_filter.mpr ⟨ho₂, by simp [hsite₂]⟩)
      have hrel := rel_getLast?_of_pairwise (R := fun a b => datetimeLE a b = true)
        datetimeLE_refl hpw ho₂s hy
      simpa [datetimeLE] using hrel
    · refine List.mem_map.mpr ⟨site, h, ?_⟩
      rw [hrisk]

/-- Claim C5 witness: the site 01646500 of the two sample records gets the
HIGH risk row computed from its latest record sampleObs2. -/
theorem C5_risk_classifier_witness :
    ("01646500" ∈ uniqueFirst (([sampleObs1, sampleObs2]).map Observation.site_code)) ∧
    ((∀ v : ℚ, classify "Streamflow" v =
        if v > 15000 then "HIGH" else if v > 8000 then "MODERATE" else "LOW") ∧
    (∀ v : ℚ, classify "Gage Height" v =
        if v > 25 then "HIGH" else if v > 15 then "MODERATE" else "LOW") ∧
    ∃ o : Observation, o ∈ [sampleObs1, sampleObs2] ∧ o.site_code = "01646500" ∧
      (∀ o₂ ∈ [sampleObs1, sampleObs2], o₂.site_code = "01646500" →
        o₂.datetime ≤ o.datetime) ∧
      site_risk "Streamflow" [sampleObs1, sampleObs2] "01646500" =
        some (classify "Streamflow" o.value) ∧
      ("01646500", some (classify "Streamflow" o.value)) ∈
        flood_risks "Streamflow" [sampleObs1, sampleObs2]) :=
  ⟨by decide, C5_risk_classifier "Streamflow" [sampleObs1, sampleObs2] "01646500" (by decide)⟩

end FloodMonitor
